import Mathlib

/-!
# Sonar / Flipper: the Android binding (sonar.cpp) and FlipperConnectionMock

A shallow embedding of

* `xplat/Flipper/FlipperConnection.h` (the connection interface),
* `xplat/FlipperTestLib/FlipperConnectionMock.h` (the in-memory connection),
* `android/src/main/cpp/sonar.cpp` (the JNI binding).

Conventions of the embedding.

* A C++ object that the binding only calls through an abstract class
  (`SonarResponder`, `SonarConnection`, `SonarClient`) is a record of state
  transformers over an arbitrary state type: a theorem quantified over such a
  record holds for every implementation of the abstract class.
* A nullable reference (`jni::alias_ref`, `std::shared_ptr`) is an `Option`.
* A C++ exception is the error case of `Except`.
* A Java object is a record of what its methods return, with a field `ref`
  that stands for the identity of the object where identity matters.
* Calls into Java code are recorded, in order, in a list.
-/

namespace Flipper

/-! ## folly::dynamic -/

/-- The values of `folly::dynamic` (numbers are kept as integers). The
expression `folly::dynamic::object()` is `Dynamic.object []`. -/
inductive Dynamic where
  | null
  | bool (b : Bool)
  | int (n : Int)
  | string (s : String)
  | array (items : List Dynamic)
  | object (fields : List (String × Dynamic))

/-! ## std::map -/

/-- A `std::map<K, V>`: the entries in iteration order. -/
abbrev StdMap (K V : Type) := List (K × V)

namespace StdMap

variable {K V : Type} [LinearOrder K]

/-- The statement `m[k] = v` on a `std::map`: the entry of an equivalent key
has its value replaced, otherwise a new entry is put at its place in key
order. -/
def assign (k : K) (v : V) : StdMap K V → StdMap K V
  | [] => [(k, v)]
  | (k', v') :: rest =>
    if k < k' then (k, v) :: (k', v') :: rest
    else if k' < k then (k', v') :: assign k v rest
    else (k', v) :: rest

/-- The lookup `m.find(k)`: the value stored under `k`, if any. -/
def find (k : K) : StdMap K V → Option V
  | [] => none
  | (k', v') :: rest => if k' = k then some v' else find k rest

/-- The entries stored under the key `k`. -/
def entriesOf (k : K) (m : StdMap K V) : List (K × V) :=
  m.filter (fun e => decide (e.1 = k))

/-- The entries stored under the keys other than `k`. -/
def entriesOff (k : K) (m : StdMap K V) : List (K × V) :=
  m.filter (fun e => !decide (e.1 = k))

/-- The representation invariant of `std::map`: keys strictly increasing
(hence unique). -/
def WellFormed (m : StdMap K V) : Prop :=
  m.Pairwise (fun a b => a.1 < b.1)

end StdMap

/-! ## FlipperConnection.h -/

/-- The abstract class `FlipperConnection` (`SonarConnection` in sonar.cpp):
its three virtual methods, over the state `σ` of an implementation.
`Receiver` is the type `SonarReceiver` of receiver callbacks. -/
structure FlipperConnection (Receiver σ : Type) where
  send : String → Dynamic → σ → σ
  error : String → String → σ → σ
  receive : String → Receiver → σ → σ

/-! ## FlipperConnectionMock.h -/

/-- The class `FlipperConnectionMock`: its two public members. -/
structure FlipperConnectionMock (Receiver : Type) where
  sent_ : StdMap String Dynamic
  receivers_ : StdMap String Receiver

namespace FlipperConnectionMock

variable {Receiver : Type}

/-- The method `send`: `sent_[method] = params`. -/
def send (method : String) (params : Dynamic)
    (self : FlipperConnectionMock Receiver) : FlipperConnectionMock Receiver :=
  { self with sent_ := StdMap.assign method params self.sent_ }

/-- The method `receive`: `receivers_[method] = receiver`. -/
def receive (method : String) (receiver : Receiver)
    (self : FlipperConnectionMock Receiver) : FlipperConnectionMock Receiver :=
  { self with receivers_ := StdMap.assign method receiver self.receivers_ }

/-- The method `error`: the body is empty. -/
def error (_message : String) (_stacktrace : String)
    (self : FlipperConnectionMock Receiver) : FlipperConnectionMock Receiver :=
  self

/-- The mock as an implementation of the abstract class. -/
def asConnection : FlipperConnection Receiver (FlipperConnectionMock Receiver) :=
  ⟨send, error, receive⟩

end FlipperConnectionMock

/-! ## sonar.cpp: payloads, responder and connection -/

/-- The Java class `SonarObject`, seen through `toJsonString()`. -/
structure JFlipperObject where
  toJsonString : String

/-- The Java class `SonarArray`, seen through `toJsonString()`. -/
structure JFlipperArray where
  toJsonString : String

/-- The abstract class `SonarResponder`: the two methods the binding calls,
over the state `σ` of an implementation. -/
structure SonarResponder (σ : Type) where
  success : Dynamic → σ → σ
  error : Dynamic → σ → σ

/-- The class `JFlipperResponderImpl`: its member `_responder`. -/
structure JFlipperResponderImpl (σ : Type) where
  _responder : SonarResponder σ

namespace JFlipperResponderImpl

variable {ε σ : Type}

/-- The method `successObject`. `parseJson` is `folly::parseJson`, which
throws on malformed input. -/
def successObject (parseJson : String → Except ε Dynamic)
    (self : JFlipperResponderImpl σ) (json : Option JFlipperObject) (s : σ) :
    Except ε σ :=
  match json with
  | some j =>
    match parseJson j.toJsonString with
    | .ok v => .ok (self._responder.success v s)
    | .error e => .error e
  | none => .ok (self._responder.success (Dynamic.object []) s)

/-- The method `successArray`. -/
def successArray (parseJson : String → Except ε Dynamic)
    (self : JFlipperResponderImpl σ) (json : Option JFlipperArray) (s : σ) :
    Except ε σ :=
  match json with
  | some j =>
    match parseJson j.toJsonString with
    | .ok v => .ok (self._responder.success v s)
    | .error e => .error e
  | none => .ok (self._responder.success (Dynamic.object []) s)

/-- The method `error`. -/
def error (parseJson : String → Except ε Dynamic)
    (self : JFlipperResponderImpl σ) (json : Option JFlipperObject) (s : σ) :
    Except ε σ :=
  match json with
  | some j =>
    match parseJson j.toJsonString with
    | .ok v => .ok (self._responder.error v s)
    | .error e => .error e
  | none => .ok (self._responder.error (Dynamic.object []) s)

end JFlipperResponderImpl

/-- A call from Java of one of the native methods that `registerNatives`
of `JFlipperResponderImpl` exposes. -/
inductive ResponderCall where
  | successObject (json : Option JFlipperObject)
  | successArray (json : Option JFlipperArray)
  | error (json : Option JFlipperObject)

namespace ResponderCall

variable {ε σ : Type}

/-- One call: the table of `registerNatives` sends each name to the method of
that name. -/
def invoke (parseJson : String → Except ε Dynamic)
    (self : JFlipperResponderImpl σ) (c : ResponderCall) (s : σ) : Except ε σ :=
  match c with
  | successObject json => self.successObject parseJson json s
  | successArray json => self.successArray parseJson json s
  | error json => self.error parseJson json s

/-- Calls made one after the other; an exception ends the sequence. -/
def invokeAll (parseJson : String → Except ε Dynamic)
    (self : JFlipperResponderImpl σ) : List ResponderCall → σ → Except ε σ
  | [], s => .ok s
  | c :: cs, s =>
    match invoke parseJson self c s with
    | .ok s' => invokeAll parseJson self cs s'
    | .error e => .error e

end ResponderCall

/-- A completion handed to a responder. -/
inductive Completion where
  | success (value : Dynamic)
  | error (value : Dynamic)

/-- A responder that keeps every completion it is handed, in order. -/
def recordingResponder : SonarResponder (List Completion) :=
  ⟨fun v log => log ++ [Completion.success v], fun v log => log ++ [Completion.error v]⟩

/-- The class `JFlipperConnectionImpl`: its member `_connection`. -/
structure JFlipperConnectionImpl (Receiver σ : Type) where
  _connection : FlipperConnection Receiver σ

namespace JFlipperConnectionImpl

variable {ε Receiver σ : Type}

/-- The method `sendObject`. -/
def sendObject (parseJson : String → Except ε Dynamic)
    (self : JFlipperConnectionImpl Receiver σ) (method : String)
    (json : Option JFlipperObject) (s : σ) : Except ε σ :=
  match json with
  | some j =>
    match parseJson j.toJsonString with
    | .ok v => .ok (self._connection.send method v s)
    | .error e => .error e
  | none => .ok (self._connection.send method (Dynamic.object []) s)

/-- The method `sendArray`. -/
def sendArray (parseJson : String → Except ε Dynamic)
    (self : JFlipperConnectionImpl Receiver σ) (method : String)
    (json : Option JFlipperArray) (s : σ) : Except ε σ :=
  match json with
  | some j =>
    match parseJson j.toJsonString with
    | .ok v => .ok (self._connection.send method v s)
    | .error e => .error e
  | none => .ok (self._connection.send method (Dynamic.object []) s)

end JFlipperConnectionImpl

/-! ## sonar.cpp: plugins -/

/-- A callback that reaches Java code: a method invoked on the Java object
with identity `ref`. -/
inductive JavaCall where
  | onConnect (ref : Nat)
  | onDisconnect (ref : Nat)
  | onUpdate (ref : Nat)
  | onStepStarted (ref : Nat) (step : String)
  | onStepSuccess (ref : Nat) (step : String)
  | onStepFailed (ref : Nat) (step : String) (errorMessage : String)
  deriving DecidableEq

/-- The Java class `SonarPlugin`: the identity of the object and what its
`getId()` returns. -/
structure JFlipperPlugin where
  ref : Nat
  getId : String
  deriving DecidableEq

namespace JFlipperPlugin

/-- The method `identifier`: the Java method `getId`. -/
def identifier (self : JFlipperPlugin) : String :=
  self.getId

/-- The method `didConnect`: the Java method `onConnect`. -/
def didConnect (self : JFlipperPlugin) : List JavaCall :=
  [JavaCall.onConnect self.ref]

/-- The method `didDisconnect`: the Java method `onDisconnect`. -/
def didDisconnect (self : JFlipperPlugin) : List JavaCall :=
  [JavaCall.onDisconnect self.ref]

end JFlipperPlugin

/-- The class `JFlipperPluginWrapper`: its member `jplugin`. -/
structure JFlipperPluginWrapper where
  jplugin : JFlipperPlugin
  deriving DecidableEq

namespace JFlipperPluginWrapper

/-- The override of `identifier`. -/
def identifier (self : JFlipperPluginWrapper) : String :=
  self.jplugin.identifier

/-- The override of `didConnect`. -/
def didConnect (self : JFlipperPluginWrapper) : List JavaCall :=
  self.jplugin.didConnect

/-- The override of `didDisconnect`. -/
def didDisconnect (self : JFlipperPluginWrapper) : List JavaCall :=
  self.jplugin.didDisconnect

end JFlipperPluginWrapper

/-! ## sonar.cpp: state listener -/

/-- The Java class `SonarStateUpdateListener`: the identity of the object. -/
structure JFlipperStateUpdateListener where
  ref : Nat
  deriving DecidableEq

namespace JFlipperStateUpdateListener

/-- The method `onUpdate`: the Java method of that name. -/
def onUpdate (self : JFlipperStateUpdateListener) : List JavaCall :=
  [JavaCall.onUpdate self.ref]

/-- The method `onStepStarted`: the Java method of that name. -/
def onStepStarted (self : JFlipperStateUpdateListener) (step : String) : List JavaCall :=
  [JavaCall.onStepStarted self.ref step]

/-- The method `onStepSuccess`: the Java method of that name. -/
def onStepSuccess (self : JFlipperStateUpdateListener) (step : String) : List JavaCall :=
  [JavaCall.onStepSuccess self.ref step]

/-- The method `onStepFailed`: the Java method of that name. -/
def onStepFailed (self : JFlipperStateUpdateListener) (step : String)
    (errorMessage : String) : List JavaCall :=
  [JavaCall.onStepFailed self.ref step errorMessage]

end JFlipperStateUpdateListener

/-- Modelled from the spec: the notifications a state listener is sent
(Sonar/SonarStateUpdateListener.h is not among the sources): "receives
onUpdate plus per-step start/success/failure callbacks". -/
inductive StateNotification where
  | onUpdate
  | onStepStarted (name : String)
  | onStepSuccess (name : String)
  | onStepFailed (name : String) (message : String)
  deriving DecidableEq

/-- The class `AndroidFlipperStateUpdateListener`: its member
`jStateListener`, set by the constructor from its argument. -/
structure AndroidFlipperStateUpdateListener where
  jStateListener : JFlipperStateUpdateListener
  deriving DecidableEq

namespace AndroidFlipperStateUpdateListener

/-- The method `onUpdate`: `jStateListener->onUpdate()`. -/
def onUpdate (self : AndroidFlipperStateUpdateListener) : List JavaCall :=
  self.jStateListener.onUpdate

/-- Virtual dispatch on the class: it declares and defines `onUpdate` and no
other method, so any other notification sent to it runs no code of the
binding and reaches no Java method. -/
def notify (self : AndroidFlipperStateUpdateListener) : StateNotification → List JavaCall
  | StateNotification.onUpdate => self.onUpdate
  | StateNotification.onStepStarted _ => []
  | StateNotification.onStepSuccess _ => []
  | StateNotification.onStepFailed _ _ => []

end AndroidFlipperStateUpdateListener

/-! ## sonar.cpp: state summary -/

/-- The enumeration `State` (Sonar/SonarState.h is not among the sources):
the three values that `getStateSummary` switches over. -/
inductive State where
  | in_progress
  | failed
  | success
  deriving DecidableEq

/-- The class `StateElement`: the two members that `getStateSummary`
reads. -/
structure StateElement where
  name_ : String
  state_ : State
  deriving DecidableEq

/-- The Java class `StateSummary`: the arguments of its `addEntry` calls, in
call order. -/
structure JStateSummary where
  entries : List (String × String)
  deriving DecidableEq

namespace JStateSummary

/-- The method `create`: a new Java object. -/
def create : JStateSummary :=
  ⟨[]⟩

/-- The method `addEntry`: the Java method of that name. -/
def addEntry (name : String) (state : String) (self : JStateSummary) : JStateSummary :=
  ⟨self.entries ++ [(name, state)]⟩

end JStateSummary

/-! ## sonar.cpp: JSonarClient -/

/-- The class `SonarClient` (Sonar/SonarClient.h is not among the sources):
the methods that `addPlugin`, `getPlugin`, `subscribeForUpdates`,
`unsubscribe` and `getStateSummary` of the binding call on
`SonarClient::instance()`, over the state `σ` of the instance. The plugins
it holds are the wrappers that `addPlugin` of the binding hands it. -/
structure SonarClient (σ : Type) where
  addPlugin : JFlipperPluginWrapper → σ → σ
  getPlugin : String → σ → Option JFlipperPluginWrapper
  setStateListener : Option AndroidFlipperStateUpdateListener → σ → σ
  getStateElements : σ → List StateElement

/-- The class `JSonarClient`: its member `mStateListener`. -/
structure JSonarClient where
  mStateListener : Option AndroidFlipperStateUpdateListener
  deriving DecidableEq

namespace JSonarClient

variable {σ : Type}

/-- The object that `getInstance` creates: `mStateListener = nullptr`. -/
def new : JSonarClient :=
  ⟨none⟩

/-- The method `addPlugin`. -/
def addPlugin (C : SonarClient σ) (plugin : JFlipperPlugin) (client : σ) : σ :=
  let wrapper := JFlipperPluginWrapper.mk plugin
  C.addPlugin wrapper client

/-- The method `subscribeForUpdates`. -/
def subscribeForUpdates (C : SonarClient σ) (stateListener : JFlipperStateUpdateListener)
    (self : JSonarClient) (client : σ) : JSonarClient × σ :=
  let mStateListener := some (AndroidFlipperStateUpdateListener.mk stateListener)
  ({ self with mStateListener := mStateListener }, C.setStateListener mStateListener client)

/-- The method `unsubscribe`. -/
def unsubscribe (C : SonarClient σ) (self : JSonarClient) (client : σ) : JSonarClient × σ :=
  ({ self with mStateListener := none }, C.setStateListener none client)

/-- The method `getStateSummary`. -/
def getStateSummary (C : SonarClient σ) (client : σ) : JStateSummary :=
  let summary := JStateSummary.create
  let elements := C.getStateElements client
  elements.foldl
    (fun summary element =>
      let status :=
        match element.state_ with
        | State.in_progress => "IN_PROGRESS"
        | State.failed => "FAILED"
        | State.success => "SUCCESS"
      summary.addEntry element.name_ status)
    summary

/-- The method `getPlugin`. -/
def getPlugin (C : SonarClient σ) (identifier : String) (client : σ) : Option JFlipperPlugin :=
  match C.getPlugin identifier client with
  | some wrapper => some wrapper.jplugin
  | none => none

end JSonarClient

/-- A call from Java of `subscribeForUpdates` or `unsubscribe`. -/
inductive ListenerCall where
  | subscribeForUpdates (stateListener : JFlipperStateUpdateListener)
  | unsubscribe
  deriving DecidableEq

namespace ListenerCall

variable {σ : Type}

/-- One call on the binding. -/
def invoke (C : SonarClient σ) (st : JSonarClient × σ) : ListenerCall → JSonarClient × σ
  | subscribeForUpdates l => JSonarClient.subscribeForUpdates C l st.1 st.2
  | unsubscribe => JSonarClient.unsubscribe C st.1 st.2

/-- Calls made one after the other. -/
def invokeAll (C : SonarClient σ) (calls : List ListenerCall) (st : JSonarClient × σ) :
    JSonarClient × σ :=
  calls.foldl (invoke C) st

/-- The listener slot as the specification describes it: "the listener of
the last subscribeForUpdates if no unsubscribe followed it, and empty
otherwise". -/
def specSlot (calls : List ListenerCall) : Option AndroidFlipperStateUpdateListener :=
  match calls.getLast? with
  | some (subscribeForUpdates l) => some (AndroidFlipperStateUpdateListener.mk l)
  | _ => none

end ListenerCall

/-! ## The client and the state tracker, from the specification -/

/-- Modelled from the spec: the state of the Client (the implementation of
`SonarClient` is not among the sources). The plugin registry in registration
order (ids unique), whether a transport session is active, the ids of the
connected plugins, the single listener slot, the state elements, and the
callbacks delivered to Java code so far. -/
structure ClientModel where
  registry : List JFlipperPluginWrapper
  sessionActive : Bool
  connected : List String
  listener : Option AndroidFlipperStateUpdateListener
  elements : List StateElement
  delivered : List JavaCall
  deriving DecidableEq

/-- Modelled from the spec: a call of the StateTracker (the implementation
of `SonarState` is not among the sources): `step(name)`, `succeed(name)`,
`fail(name, message)`. -/
inductive TrackerCall where
  | step (name : String)
  | succeed (name : String)
  | fail (name : String) (message : String)
  deriving DecidableEq

namespace TrackerCall

/-- Modelled from the spec: what a tracker call notifies, in order (the
tracker is not among the sources): "step(name): notifies
onStepStarted(name) then onUpdate", "succeed(name) / fail(name, message):
notifies onStepSuccess/onStepFailed then onUpdate". -/
def notifications : TrackerCall → List StateNotification
  | step name => [StateNotification.onStepStarted name, StateNotification.onUpdate]
  | succeed name => [StateNotification.onStepSuccess name, StateNotification.onUpdate]
  | fail name message => [StateNotification.onStepFailed name message, StateNotification.onUpdate]

/-- The per-step callback on the Java listener that belongs to a tracker
call: `onStepStarted` on step, `onStepSuccess` on succeed, `onStepFailed`
with the message on fail. -/
def perStepCallback (l : JFlipperStateUpdateListener) : TrackerCall → List JavaCall
  | step name => l.onStepStarted name
  | succeed name => l.onStepSuccess name
  | fail name message => l.onStepFailed name message

end TrackerCall

namespace ClientModel

/-- Modelled from the spec: a client before any call (the implementation of
`SonarClient` is not among the sources): nothing registered, no session, no
listener, nothing delivered. -/
def initial : ClientModel :=
  ⟨[], false, [], none, [], []⟩

/-- Modelled from the spec: `getPlugin(id)` (the implementation of
`SonarClient` is not among the sources): "lookup by id; returns nothing if
absent". -/
def getPlugin (identifier : String) (s : ClientModel) : Option JFlipperPluginWrapper :=
  s.registry.find? (fun w => decide (w.identifier = identifier))

/-- Modelled from the spec: `addPlugin(plugin)` (the implementation of
`SonarClient` is not among the sources): "registers plugin.id() into the
registry"; on an id collision the registration is skipped; "if a transport
session is already active, immediately promotes the plugin to connected and
delivers a fresh Connection via the plugin's connect callback". -/
def addPlugin (plugin : JFlipperPluginWrapper) (s : ClientModel) : ClientModel :=
  if (getPlugin plugin.identifier s).isSome then s
  else if s.sessionActive then
    { s with
      registry := s.registry ++ [plugin]
      connected := s.connected ++ [plugin.identifier]
      delivered := s.delivered ++ plugin.didConnect }
  else { s with registry := s.registry ++ [plugin] }

/-- Modelled from the spec: `setStateListener(listener|none)` (the
implementation of `SonarClient` is not among the sources): "replaces the
current subscriber; immediately delivers the full current StateElement
ordered sequence via onUpdate semantics". -/
def setStateListener (listener : Option AndroidFlipperStateUpdateListener)
    (s : ClientModel) : ClientModel :=
  match listener with
  | some a =>
    { s with
      listener := some a
      delivered := s.delivered ++ a.notify StateNotification.onUpdate }
  | none => { s with listener := none }

/-- Modelled from the spec: `getStateElements()` (the implementation of
`SonarClient` is not among the sources): the snapshot of the elements. -/
def getStateElements (s : ClientModel) : List StateElement :=
  s.elements

/-- Modelled from the spec: the client of the specification as a
`SonarClient` (the implementation of `SonarClient` is not among the
sources). -/
def asClient : SonarClient ClientModel :=
  ⟨addPlugin, getPlugin, setStateListener, getStateElements⟩

/-- Modelled from the spec: the delivery of a tracker call to the subscriber
(the tracker is not among the sources): every notification of the call goes
to the listener in the slot, if there is one. Only the notifications are
modelled, not the bookkeeping of the elements. -/
def track (call : TrackerCall) (s : ClientModel) : ClientModel :=
  match s.listener with
  | some a => { s with delivered := s.delivered ++ call.notifications.flatMap a.notify }
  | none => s

end ClientModel

/-! ## Test doubles and the wording of the specification -/

namespace SonarResponder

variable {σ : Type}

end SonarResponder

/-- A client that is nothing but its list of state elements: every method
other than `getStateElements` does nothing. -/
def elementsClient : SonarClient (List StateElement) :=
  ⟨fun _ s => s, fun _ _ => none, fun _ s => s, fun s => s⟩

/-- The status strings as the specification gives them: "IN_PROGRESS",
"FAILED" or "SUCCESS" for in_progress, failed and success. -/
def specStatus : State → String
  | State.in_progress => "IN_PROGRESS"
  | State.failed => "FAILED"
  | State.success => "SUCCESS"

/-! ## Facts about std::map -/

namespace StdMap

variable {K V : Type} [LinearOrder K]

theorem entriesOff_assign (k : K) (v : V) (m : StdMap K V) :
    entriesOff k (assign k v m) = entriesOff k m := by
  induction m with
  | nil => simp [assign, entriesOff]
  | cons e rest ih =>
    obtain ⟨k', v'⟩ := e
    unfold assign
    by_cases h1 : k < k'
    · simp [h1, entriesOff]
    · by_cases h2 : k' < k
      · have hne : k' ≠ k := ne_of_lt h2
        simp only [entriesOff] at ih
        simp [h1, h2, entriesOff, hne, ih]
      · have heq : k' = k := le_antisymm (not_lt.mp h1) (not_lt.mp h2)
        simp [h1, h2, entriesOff, heq]

theorem entriesOf_eq_nil (k : K) (m : StdMap K V) (h : ∀ e ∈ m, k < e.1) :
    entriesOf k m = [] := by
  unfold entriesOf
  rw [List.filter_eq_nil_iff]
  intro e he
  have hne : e.1 ≠ k := ne_of_gt (h e he)
  simp [hne]

theorem entriesOf_assign (k : K) (v : V) (m : StdMap K V) (hwf : WellFormed m) :
    entriesOf k (assign k v m) = [(k, v)] := by
  induction m with
  | nil => simp [assign, entriesOf]
  | cons e rest ih =>
    obtain ⟨k', v'⟩ := e
    unfold WellFormed at hwf
    rw [List.pairwise_cons] at hwf
    obtain ⟨hhead, htail⟩ := hwf
    unfold assign
    by_cases h1 : k < k'
    · have hrest : entriesOf k rest = [] :=
        entriesOf_eq_nil k rest (fun e he => lt_trans h1 (hhead e he))
      have hne : k' ≠ k := ne_of_gt h1
      simp only [entriesOf] at hrest
      simp [h1, entriesOf, hne, hrest]
    · by_cases h2 : k' < k
      · have hne : k' ≠ k := ne_of_lt h2
        have ih' := ih htail
        simp only [entriesOf] at ih'
        simp [h1, h2, entriesOf, hne, ih']
      · have heq : k' = k := le_antisymm (not_lt.mp h1) (not_lt.mp h2)
        subst heq
        have hrest : entriesOf k' rest = [] := entriesOf_eq_nil k' rest hhead
        simp only [entriesOf] at hrest
        simp [entriesOf, hrest]

theorem find_assign_self (k : K) (v : V) (m : StdMap K V) :
    find k (assign k v m) = some v := by
  induction m with
  | nil => simp [assign, find]
  | cons e rest ih =>
    obtain ⟨k', v'⟩ := e
    unfold assign
    by_cases h1 : k < k'
    · simp [h1, find]
    · by_cases h2 : k' < k
      · have hne : k' ≠ k := ne_of_lt h2
        simp [h1, h2, find, hne, ih]
      · have heq : k' = k := le_antisymm (not_lt.mp h1) (not_lt.mp h2)
        simp [h1, h2, find, heq]

theorem find_assign_ne (k k2 : K) (v : V) (m : StdMap K V) (hne : k2 ≠ k) :
    find k2 (assign k v m) = find k2 m := by
  induction m with
  | nil =>
    have hne' : k ≠ k2 := fun h => hne h.symm
    simp [assign, find, hne']
  | cons e rest ih =>
    obtain ⟨k', v'⟩ := e
    have hne' : k ≠ k2 := fun h => hne h.symm
    unfold assign
    by_cases h1 : k < k'
    · simp [h1, find, hne']
    · by_cases h2 : k' < k
      · simp [h1, h2, find, ih]
      · have heq : k' = k := le_antisymm (not_lt.mp h1) (not_lt.mp h2)
        simp [h1, h2, find, heq, hne']

theorem mem_assign (k : K) (v : V) (m : StdMap K V) (e : K × V)
    (he : e ∈ assign k v m) : e.1 = k ∨ e ∈ m := by
  induction m with
  | nil =>
    simp only [assign, List.mem_singleton] at he
    left
    rw [he]
  | cons e0 rest ih =>
    obtain ⟨k', v'⟩ := e0
    unfold assign at he
    by_cases h1 : k < k'
    · simp only [h1, if_true, List.mem_cons] at he
      rcases he with he | he | he
      · left; rw [he]
      · right; rw [he]; exact List.mem_cons_self _ _
      · right; exact List.mem_cons_of_mem _ he
    · by_cases h2 : k' < k
      · simp only [h1, h2, if_true, if_false, List.mem_cons] at he
        rcases he with he | he
        · right; rw [he]; exact List.mem_cons_self _ _
        · rcases ih he with h | h
          · left; exact h
          · right; exact List.mem_cons_of_mem _ h
      · have heq : k' = k := le_antisymm (not_lt.mp h1) (not_lt.mp h2)
        simp only [h1, h2, if_false, List.mem_cons] at he
        rcases he with he | he
        · left; rw [he]; exact heq
        · right; exact List.mem_cons_of_mem _ he

theorem wellFormed_assign (k : K) (v : V) (m : StdMap K V) (hwf : WellFormed m) :
    WellFormed (assign k v m) := by
  induction m with
  | nil => simp [assign, WellFormed]
  | cons e rest ih =>
    obtain ⟨k', v'⟩ := e
    unfold WellFormed at hwf
    have hwf' := hwf
    rw [List.pairwise_cons] at hwf
    obtain ⟨hhead, htail⟩ := hwf
    unfold assign
    by_cases h1 : k < k'
    · simp only [h1, if_true]
      unfold WellFormed
      rw [List.pairwise_cons]
      refine ⟨?_, hwf'⟩
      intro e he
      rcases List.mem_cons.mp he with he | he
      · rw [he]; exact h1
      · exact lt_trans h1 (hhead e he)
    · by_cases h2 : k' < k
      · simp only [h1, h2, if_true, if_false]
        unfold WellFormed
        rw [List.pairwise_cons]
        refine ⟨?_, ih htail⟩
        intro e he
        rcases mem_assign k v rest e he with h | h
        · rw [h]; exact h2
        · exact hhead e h
      · simp only [h1, h2, if_false]
        unfold WellFormed
        rw [List.pairwise_cons]
        exact ⟨hhead, htail⟩

end StdMap

/-! ## FlipperConnectionMock -/

namespace FlipperConnectionMock

variable {Receiver : Type}

/-- The method `receive` keeps the table of receivers a well-formed map. -/
theorem receive_wellFormed (m : String) (r : Receiver) (c : FlipperConnectionMock Receiver)
    (hwf : StdMap.WellFormed c.receivers_) :
    StdMap.WellFormed (receive m r c).receivers_ :=
  StdMap.wellFormed_assign m r c.receivers_ hwf

/-- C1: for every state of the mock (its table of receivers a well-formed
map), every method name `m` and receivers `r1`, `r2`: after `receive(m, r1)`
then `receive(m, r2)` the table holds exactly one entry for `m`, that entry
is `r2`, the entries of all other names are the ones it held before, and
the table of sent calls is untouched. -/
theorem receive_last_registration_wins (c : FlipperConnectionMock Receiver)
    (hwf : StdMap.WellFormed c.receivers_) (m : String) (r1 r2 : Receiver) :
    StdMap.entriesOf m (receive m r2 (receive m r1 c)).receivers_ = [(m, r2)] ∧
    StdMap.find m (receive m r2 (receive m r1 c)).receivers_ = some r2 ∧
    StdMap.entriesOff m (receive m r2 (receive m r1 c)).receivers_
      = StdMap.entriesOff m c.receivers_ ∧
    (∀ m2 : String, m2 ≠ m →
      StdMap.find m2 (receive m r2 (receive m r1 c)).receivers_
        = StdMap.find m2 c.receivers_) ∧
    (receive m r2 (receive m r1 c)).sent_ = c.sent_ := by
  refine ⟨?_, ?_, ?_, ?_, rfl⟩
  · exact StdMap.entriesOf_assign m r2 _ (StdMap.wellFormed_assign m r1 _ hwf)
  · exact StdMap.find_assign_self m r2 _
  · show StdMap.entriesOff m (StdMap.assign m r2 (StdMap.assign m r1 c.receivers_)) = _
    rw [StdMap.entriesOff_assign, StdMap.entriesOff_assign]
  · intro m2 hne
    show StdMap.find m2 (StdMap.assign m r2 (StdMap.assign m r1 c.receivers_)) = _
    rw [StdMap.find_assign_ne m m2 r2 _ hne, StdMap.find_assign_ne m m2 r1 _ hne]

/-- A witness of C1: a mock that holds a receiver for "b", and the method
"a" registered twice. -/
theorem receive_last_registration_wins_witness :
    StdMap.WellFormed (FlipperConnectionMock.mk [] [("b", 5)]).receivers_ ∧
    StdMap.entriesOf "a"
      (receive "a" 2 (receive "a" 1 (FlipperConnectionMock.mk [] [("b", 5)]))).receivers_
      = [("a", 2)] ∧
    StdMap.find "b"
      (receive "a" 2 (receive "a" 1 (FlipperConnectionMock.mk [] [("b", 5)]))).receivers_
      = StdMap.find "b" (FlipperConnectionMock.mk [] [("b", (5 : Nat))]).receivers_ := by
  have hwf : StdMap.WellFormed (FlipperConnectionMock.mk [] [("b", (5 : Nat))]).receivers_ := by
    simp [StdMap.WellFormed]
  have h := receive_last_registration_wins (FlipperConnectionMock.mk [] [("b", (5 : Nat))])
    hwf "a" 1 2
  exact ⟨hwf, h.1, h.2.2.2.1 "b" (by decide)⟩

/-- C9: for every state of the mock and every message and stack trace,
`error(message, stacktrace)` leaves the table of receivers and the table of
sent calls as they were, so every lookup of a receiver gives what it gave
before. -/
theorem error_unchanged (c : FlipperConnectionMock Receiver) (message stacktrace : String) :
    (error message stacktrace c).receivers_ = c.receivers_ ∧
    (error message stacktrace c).sent_ = c.sent_ ∧
    (∀ m : String, StdMap.find m (error message stacktrace c).receivers_
      = StdMap.find m c.receivers_) ∧
    (asConnection.error message stacktrace c).receivers_ = c.receivers_ ∧
    (asConnection.error message stacktrace c).sent_ = c.sent_ :=
  ⟨rfl, rfl, fun _ => rfl, rfl, rfl⟩

end FlipperConnectionMock

/-! ## JFlipperResponderImpl and JFlipperConnectionImpl -/

namespace ResponderCall

variable {ε σ : Type}

end ResponderCall

/-- C10: in the binding a null payload is replaced by the empty object and a
payload that is not null by the parse of its JSON string, for successObject,
successArray, error, sendObject and sendArray, on every responder and every
connection. The two array variants forward the empty object too, which is
not the empty array. -/
theorem null_payload_is_empty_object {ε Receiver σ τ : Type}
    (parseJson : String → Except ε Dynamic)
    (R : JFlipperResponderImpl σ) (N : JFlipperConnectionImpl Receiver τ)
    (method : String) (s : σ) (t : τ)
    (jo : JFlipperObject) (ja : JFlipperArray) (vo va : Dynamic)
    (ho : parseJson jo.toJsonString = Except.ok vo)
    (ha : parseJson ja.toJsonString = Except.ok va) :
    (R.successObject parseJson none s = Except.ok (R._responder.success (Dynamic.object []) s) ∧
     R.successArray parseJson none s = Except.ok (R._responder.success (Dynamic.object []) s) ∧
     R.error parseJson none s = Except.ok (R._responder.error (Dynamic.object []) s) ∧
     N.sendObject parseJson method none t
       = Except.ok (N._connection.send method (Dynamic.object []) t) ∧
     N.sendArray parseJson method none t
       = Except.ok (N._connection.send method (Dynamic.object []) t)) ∧
    (R.successObject parseJson (some jo) s = Except.ok (R._responder.success vo s) ∧
     R.successArray parseJson (some ja) s = Except.ok (R._responder.success va s) ∧
     R.error parseJson (some jo) s = Except.ok (R._responder.error vo s) ∧
     N.sendObject parseJson method (some jo) t = Except.ok (N._connection.send method vo t) ∧
     N.sendArray parseJson method (some ja) t = Except.ok (N._connection.send method va t)) ∧
    Dynamic.object [] ≠ Dynamic.array [] := by
  refine ⟨⟨rfl, rfl, rfl, rfl, rfl⟩, ⟨?_, ?_, ?_, ?_, ?_⟩, ?_⟩
  · simp [JFlipperResponderImpl.successObject, ho]
  · simp [JFlipperResponderImpl.successArray, ha]
  · simp [JFlipperResponderImpl.error, ho]
  · simp [JFlipperConnectionImpl.sendObject, ho]
  · simp [JFlipperConnectionImpl.sendArray, ha]
  · intro h
    cases h

/-- A witness of C10: a parser that reads every string as the empty array,
the responder that keeps what it is handed, and the mock connection. -/
theorem null_payload_is_empty_object_witness :
    (fun _ => Except.ok (Dynamic.array []) : String → Except Unit Dynamic)
        (JFlipperObject.mk "[]").toJsonString = Except.ok (Dynamic.array []) ∧
    (JFlipperResponderImpl.mk recordingResponder).successArray
        (fun _ => Except.ok (Dynamic.array []) : String → Except Unit Dynamic) none []
      = Except.ok [Completion.success (Dynamic.object [])] ∧
    (JFlipperConnectionImpl.mk (FlipperConnectionMock.asConnection
        : FlipperConnection Nat (FlipperConnectionMock Nat))).sendArray
        (fun _ => Except.ok (Dynamic.array []) : String → Except Unit Dynamic) "m"
        (some (JFlipperArray.mk "[]")) (FlipperConnectionMock.mk [] [])
      = Except.ok (FlipperConnectionMock.mk [("m", Dynamic.array [])] []) := by
  have h := null_payload_is_empty_object
    (fun _ => Except.ok (Dynamic.array []) : String → Except Unit Dynamic)
    (JFlipperResponderImpl.mk recordingResponder)
    (JFlipperConnectionImpl.mk (FlipperConnectionMock.asConnection
        : FlipperConnection Nat (FlipperConnectionMock Nat)))
    "m" [] (FlipperConnectionMock.mk [] [])
    (JFlipperObject.mk "[]") (JFlipperArray.mk "[]") (Dynamic.array []) (Dynamic.array [])
    rfl rfl
  exact ⟨rfl, h.1.2.1, h.2.1.2.2.2.2⟩

/-! ## JSonarClient -/

namespace JSonarClient

variable {σ : Type}

/-- C4: for every client and every identifier, `getPlugin` of the binding
is a total function into an optional plugin; it returns null exactly when
the lookup of the client finds nothing, returns a plugin exactly when the
lookup returns one, and that plugin is the one the found wrapper holds. -/
theorem getPlugin_null_iff_lookup_empty (C : SonarClient σ) (identifier : String) (client : σ) :
    (getPlugin C identifier client = none ↔ C.getPlugin identifier client = none) ∧
    ((getPlugin C identifier client).isSome = (C.getPlugin identifier client).isSome) ∧
    getPlugin C identifier client
      = (C.getPlugin identifier client).map (fun wrapper => wrapper.jplugin) := by
  unfold getPlugin
  cases C.getPlugin identifier client <;> simp

theorem getStateSummary_fold (elements : List StateElement) (summary : JStateSummary) :
    (elements.foldl
      (fun summary element =>
        JStateSummary.addEntry element.name_
          (match element.state_ with
            | State.in_progress => "IN_PROGRESS"
            | State.failed => "FAILED"
            | State.success => "SUCCESS") summary)
      summary).entries
      = summary.entries ++ elements.map (fun e => (e.name_, specStatus e.state_)) := by
  induction elements generalizing summary with
  | nil => simp
  | cons e rest ih =>
    rw [List.foldl_cons, ih]
    cases hst : e.state_ <;> simp [JStateSummary.addEntry, specStatus, hst]

/-- C8: for every client, `getStateSummary` adds one entry per element that
`getStateElements` returns, in the same order, with the name of the element
and the status string of the specification; distinct statuses have distinct
strings; and for the elements a:success, b:failed the summary is
("a","SUCCESS"), ("b","FAILED"). -/
theorem getStateSummary_entries (C : SonarClient σ) (client : σ) :
    (getStateSummary C client).entries
      = (C.getStateElements client).map (fun e => (e.name_, specStatus e.state_)) ∧
    (getStateSummary C client).entries.length = (C.getStateElements client).length ∧
    Function.Injective specStatus ∧
    getStateSummary elementsClient
        [StateElement.mk "a" State.success, StateElement.mk "b" State.failed]
      = JStateSummary.mk [("a", "SUCCESS"), ("b", "FAILED")] := by
  have h : (getStateSummary C client).entries
      = (C.getStateElements client).map (fun e => (e.name_, specStatus e.state_)) := by
    unfold getStateSummary
    simp only []
    rw [getStateSummary_fold]
    simp [JStateSummary.create]
  refine ⟨h, by rw [h, List.length_map], ?_, by decide⟩
  intro a b hab
  cases a <;> cases b <;> first | rfl | (exfalso; revert hab; simp [specStatus])

end JSonarClient

namespace ListenerCall

variable {σ : Type}

theorem invokeAll_snoc (C : SonarClient σ) (calls : List ListenerCall) (call : ListenerCall)
    (st : JSonarClient × σ) :
    invokeAll C (calls ++ [call]) st = invoke C (invokeAll C calls st) call := by
  simp [invokeAll, List.foldl_append]

/-- C7: for every client, after any sequence of subscribeForUpdates and
unsubscribe calls on a new binding object the listener slot holds the
listener of the last subscribeForUpdates if no unsubscribe followed it and
is empty otherwise; and the last thing each call does to the client is to
hand its setStateListener the value that the slot then holds. -/
theorem listener_slot_is_last_subscription (C : SonarClient σ) (client : σ) :
    (∀ calls : List ListenerCall,
      (invokeAll C calls (JSonarClient.new, client)).1.mStateListener = specSlot calls) ∧
    (∀ (calls : List ListenerCall) (call : ListenerCall),
      (invokeAll C (calls ++ [call]) (JSonarClient.new, client)).2
        = C.setStateListener
            (invokeAll C (calls ++ [call]) (JSonarClient.new, client)).1.mStateListener
            (invokeAll C calls (JSonarClient.new, client)).2) := by
  constructor
  · intro calls
    induction calls using List.reverseRecOn with
    | nil => rfl
    | append_singleton calls call _ =>
      rw [invokeAll_snoc]
      cases call <;>
        simp [invoke, specSlot, JSonarClient.subscribeForUpdates, JSonarClient.unsubscribe]
  · intro calls call
    rw [invokeAll_snoc]
    cases call <;> rfl

end ListenerCall

/-! ## The binding on the client of the specification -/

namespace ClientModel

theorem getPlugin_registry_append (s : ClientModel) (w : JFlipperPluginWrapper)
    (rest : ClientModel) (hreg : rest.registry = s.registry ++ [w])
    (hnone : getPlugin w.identifier s = none) :
    getPlugin w.identifier rest = some w := by
  unfold getPlugin at hnone ⊢
  rw [hreg, List.find?_append, hnone]
  simp

/-- C3: on the client of the specification, for every plugin `p` under whose
identifier nothing is registered, `getPlugin` of the binding after
`addPlugin(p)` of the binding returns `p` itself: the same Java object, not
the wrapper and not a copy with another identity. -/
theorem getPlugin_after_addPlugin (s : ClientModel) (p : JFlipperPlugin)
    (hfree : getPlugin p.identifier s = none) :
    JSonarClient.getPlugin asClient p.identifier (JSonarClient.addPlugin asClient p s)
      = some p := by
  have hfree' : getPlugin (JFlipperPluginWrapper.mk p).identifier s = none := hfree
  have hlook : getPlugin (JFlipperPluginWrapper.mk p).identifier
      (addPlugin (JFlipperPluginWrapper.mk p) s) = some (JFlipperPluginWrapper.mk p) := by
    apply getPlugin_registry_append s _ _ _ hfree'
    unfold addPlugin
    rw [hfree']
    cases s.sessionActive <;> simp
  show (match getPlugin p.identifier (addPlugin (JFlipperPluginWrapper.mk p) s) with
    | some wrapper => some wrapper.jplugin
    | none => none) = some p
  have hid : p.identifier = (JFlipperPluginWrapper.mk p).identifier := rfl
  rw [hid, hlook]

/-- A witness of C3: the plugin "P" added to a client with an active session
that holds the plugin "Q". -/
theorem getPlugin_after_addPlugin_witness :
    getPlugin (JFlipperPlugin.mk 2 "P").identifier
        (ClientModel.mk [JFlipperPluginWrapper.mk (JFlipperPlugin.mk 1 "Q")] true ["Q"]
          none [] []) = none ∧
    JSonarClient.getPlugin asClient (JFlipperPlugin.mk 2 "P").identifier
        (JSonarClient.addPlugin asClient (JFlipperPlugin.mk 2 "P")
          (ClientModel.mk [JFlipperPluginWrapper.mk (JFlipperPlugin.mk 1 "Q")] true ["Q"]
            none [] []))
      = some (JFlipperPlugin.mk 2 "P") :=
  ⟨by decide,
   getPlugin_after_addPlugin
     (ClientModel.mk [JFlipperPluginWrapper.mk (JFlipperPlugin.mk 1 "Q")] true ["Q"] none [] [])
     (JFlipperPlugin.mk 2 "P") (by decide)⟩

/-- C6, as the code has it: a listener subscribed through
subscribeForUpdates receives, for every tracked step (step, succeed or
fail), the callback onUpdate once and nothing else: the adapter that the
binding installs forwards onUpdate only, and the per-step callback of the
call is not among what is delivered. -/
theorem subscribed_listener_receives_onUpdate_only (s : ClientModel) (self : JSonarClient)
    (l : JFlipperStateUpdateListener) (call : TrackerCall) :
    (track call (JSonarClient.subscribeForUpdates asClient l self s).2).delivered
      = (JSonarClient.subscribeForUpdates asClient l self s).2.delivered
          ++ [JavaCall.onUpdate l.ref] ∧
    (call.perStepCallback l).filter (fun e => decide (e ∈ [JavaCall.onUpdate l.ref])) = [] := by
  constructor
  · cases call <;> rfl
  · cases call <;>
      simp [TrackerCall.perStepCallback, JFlipperStateUpdateListener.onStepStarted,
        JFlipperStateUpdateListener.onStepSuccess, JFlipperStateUpdateListener.onStepFailed]

/-- C6 fails as stated: the listener 7 is subscribed on a new client, then
the tracker runs step("a"), succeed("a") and fail("a", "x"); the listener is
delivered onUpdate each time, and never onStepStarted, onStepSuccess or
onStepFailed. -/
theorem per_step_callbacks_not_delivered :
    (track (TrackerCall.step "a")
        (JSonarClient.subscribeForUpdates asClient (JFlipperStateUpdateListener.mk 7)
          JSonarClient.new initial).2).delivered
      = [JavaCall.onUpdate 7, JavaCall.onUpdate 7] ∧
    JavaCall.onStepStarted 7 "a" ∉
      (track (TrackerCall.step "a")
        (JSonarClient.subscribeForUpdates asClient (JFlipperStateUpdateListener.mk 7)
          JSonarClient.new initial).2).delivered ∧
    JavaCall.onStepSuccess 7 "a" ∉
      (track (TrackerCall.succeed "a")
        (JSonarClient.subscribeForUpdates asClient (JFlipperStateUpdateListener.mk 7)
          JSonarClient.new initial).2).delivered ∧
    JavaCall.onStepFailed 7 "a" "x" ∉
      (track (TrackerCall.fail "a" "x")
        (JSonarClient.subscribeForUpdates asClient (JFlipperStateUpdateListener.mk 7)
          JSonarClient.new initial).2).delivered := by
  refine ⟨by decide, by decide, by decide, by decide⟩

end ClientModel

end Flipper
